import Mathlib

/-!
Verification of the umongo `abstract.py` core: a shallow embedding of the
field/schema/validator base classes and proofs about their behaviour.

Python values are modelled by `PyValue` (with the marshmallow `missing`
sentinel as an explicit constructor), Python `None` returns by `Option`,
raised exceptions by `Except`, and the process-wide gettext catalog by an
explicit function parameter `tr : String → String` threaded through every
translating operation.
-/

/-- A Python value as manipulated by the field conversion pipeline.
`missing` is the marshmallow absent sentinel, `noneV` is Python `None`
(an explicit present value, distinct from absence). -/
inductive PyValue where
  | missing : PyValue
  | noneV : PyValue
  | boolV : Bool → PyValue
  | intV : Int → PyValue
  | strV : String → PyValue
  deriving Repr, DecidableEq

/-- Default conversion hook `BaseField._serialize_to_mongo`: identity. -/
def _serialize_to_mongo (obj : PyValue) : PyValue :=
  obj

/-- Default conversion hook `BaseField._deserialize_from_mongo`: identity. -/
def _deserialize_from_mongo (value : PyValue) : PyValue :=
  value

/-- The conversion hooks of a field: concrete field variants override
`_serialize_to_mongo` / `_deserialize_from_mongo`; the base variant keeps
the identity defaults. -/
structure FieldConv where
  ser : PyValue → PyValue
  deser : PyValue → PyValue

/-- The base/default field variant: both hooks are the defaults. -/
def baseFieldConv : FieldConv :=
  ⟨_serialize_to_mongo, _deserialize_from_mongo⟩

/-- `BaseField.serialize_to_mongo`: if the object is the `missing` sentinel
it is returned unchanged, otherwise the `_serialize_to_mongo` hook is
applied. -/
def serialize_to_mongo (f : FieldConv) (obj : PyValue) : PyValue :=
  if obj = PyValue.missing then PyValue.missing else f.ser obj

/-- `BaseField.deserialize_from_mongo`: delegates to the
`_deserialize_from_mongo` hook. -/
def deserialize_from_mongo (f : FieldConv) (value : PyValue) : PyValue :=
  f.deser value

/-- One entry of `BaseSchema.fields`: the declared name and the flags the
unknown-key check inspects. -/
structure SchemaField where
  name : String
  dump_only : Bool
  deriving Repr, DecidableEq

/-- `loadable_fields` as computed inside `_check_unknown_fields`:
the declared names of the fields whose `dump_only` flag is off. -/
def loadable_fields (fields : List SchemaField) : List String :=
  (fields.filter (fun f => !f.dump_only)).map (fun f => f.name)

/-- Substitution step of Python `str.format` for the single placeholder
`\x7bfield\x7d`: every occurrence in the character stream is replaced by
the key. -/
def substField (key : List Char) : List Char → List Char
  | '\x7b' :: 'f' :: 'i' :: 'e' :: 'l' :: 'd' :: '\x7d' :: rest =>
      key ++ substField key rest
  | c :: rest => c :: substField key rest
  | [] => []

/-- The error message `_check_unknown_fields` raises for one key:
the template is translated through the active catalog `tr`, then
the `\x7bfield\x7d` placeholder is substituted by the key
(Python `str.format`). -/
def unknownFieldMsg (tr : String → String) (key : String) : String :=
  String.mk (substField key.data (tr "Unknown field name {field}.").data)

/-- `_check_unknown_fields`: iterates over the keys of the original data in
order and raises a `ValidationError` at the first key that is not a
loadable field name; keys are matched against declared names, not storage
aliases. `.ok ()` models the check passing, `.error msg` models the raised
`ValidationError`. -/
def _check_unknown_fields (tr : String → String) (fields : List SchemaField) :
    List String → Except String Unit
  | [] => Except.ok ()
  | key :: rest =>
      if (loadable_fields fields).contains key then
        _check_unknown_fields tr fields rest
      else
        Except.error (unknownFieldMsg tr key)

/-- Storage index kinds named by the `BaseField` docstring table. -/
inductive IndexKind where
  | noIndex : IndexKind
  | uniqueIndex : IndexKind
  | uniqueSparseIndex : IndexKind
  deriving Repr, DecidableEq

/-- The index table documented on `BaseField` (abstract.py lines 69-78),
transliterated row by row: the rows list the enabled flags
(required, allow_none, unique) and the resulting index. -/
def indexKind (required allow_none unique : Bool) : IndexKind :=
  match required, allow_none, unique with
  | false, false, false => IndexKind.noIndex         -- <no flags>
  | false, true,  false => IndexKind.noIndex         -- allow_none
  | true,  false, false => IndexKind.noIndex         -- required
  | true,  true,  false => IndexKind.noIndex         -- required, allow_none
  | true,  true,  true  => IndexKind.uniqueIndex     -- required, unique, allow_none
  | false, false, true  => IndexKind.uniqueSparseIndex -- unique
  | true,  false, true  => IndexKind.uniqueIndex     -- unique, required
  | false, true,  true  => IndexKind.uniqueSparseIndex -- unique, allow_none

/-- The index-kind table exactly as the claim states it: no index when
`unique` is off; a plain unique index when `unique` is on and `allow_none`
is off (whatever `required`), and also when all three flags are on; a
unique sparse index exactly when `unique` is on, `required` off and
`allow_none` on. Written from the claim, to be compared against
`indexKind`. -/
def indexKindClaim (required allow_none unique : Bool) : IndexKind :=
  if unique = false then IndexKind.noIndex
  else if allow_none = false then IndexKind.uniqueIndex
  else if required = true then IndexKind.uniqueIndex
  else IndexKind.uniqueSparseIndex

/-- A Python class as seen by the MRO walks of `as_marshmallow_field` and
`as_marshmallow_validator`: its name and whether it is a subclass of
marshmallow's `fields.Field` resp. of umongo's `BaseField`. -/
structure PyClass where
  clsName : String
  isMaField : Bool
  isBaseField : Bool
  deriving Repr, DecidableEq

/-- The MRO scan shared by both projection methods: the first class of the
`mro` list that is not a subclass of `BaseField` but is a subclass of
marshmallow's `fields.Field`; `none` when the loop falls through (the
Python function then implicitly returns `None`). -/
def findPureMaClass (mro : List PyClass) : Option PyClass :=
  mro.find? (fun c => !c.isBaseField && c.isMaField)

/-- Python truthiness of an optional string attribute: `None` and the
empty string are falsy. -/
def strTruthy : Option String → Bool
  | none => false
  | some s => !(s = "")

/-- `BaseField.translate_query`: `{self.attribute or key: query}` — a
single-entry mapping whose key is the field's `attribute` when truthy
(set and non-empty), the given `key` otherwise. -/
def translate_query (attribute_ : Option String) (key : String)
    (query : PyValue) : List (String × PyValue) :=
  [(if strTruthy attribute_ then attribute_.getD key else key, query)]

/-- The attribute/flag state of a `BaseField` instance that
`_extract_marshmallow_field_params` and `as_marshmallow_field` read. -/
structure BaseFieldData where
  default : PyValue
  attribute_ : Option String
  load_from : Option String
  validate : PyValue
  required : Bool
  allow_none : Bool
  load_only : Bool
  dump_only : Bool
  missing : PyValue
  error_messages : List (String × String)
  mro : List PyClass
  deriving Repr, DecidableEq

/-- The keyword-argument dictionary built by
`_extract_marshmallow_field_params` (fixed key set in the source). -/
structure MaParams where
  default : PyValue
  load_from : Option String
  validate : PyValue
  required : Bool
  allow_none : Bool
  load_only : Bool
  dump_only : Bool
  missing : PyValue
  error_messages : List (String × String)
  attribute_ : Option String
  deriving Repr, DecidableEq

/-- `BaseField._extract_marshmallow_field_params`: collects the nine
validation parameters, and adds `attribute` only when `mongo_world` is on
and the attribute is truthy. -/
def _extract_marshmallow_field_params (f : BaseFieldData)
    (mongo_world : Bool) : MaParams :=
  ⟨f.default, f.load_from, f.validate, f.required, f.allow_none,
   f.load_only, f.dump_only, f.missing, f.error_messages,
   if mongo_world && strTruthy f.attribute_ then f.attribute_ else none⟩

/-- Caller-supplied `params` for `as_marshmallow_field`: a partial
dictionary merged into the collected kwargs by `kwargs.update(params)`;
`none` leaves the collected value in place. -/
structure MaParamsPatch where
  default : Option PyValue
  load_from : Option (Option String)
  validate : Option PyValue
  required : Option Bool
  allow_none : Option Bool
  load_only : Option Bool
  dump_only : Option Bool
  missing : Option PyValue
  error_messages : Option (List (String × String))
  attribute_ : Option (Option String)
  deriving Repr, DecidableEq

/-- The empty `params` dictionary (no overrides). -/
def MaParamsPatch.empty : MaParamsPatch :=
  ⟨none, none, none, none, none, none, none, none, none, none⟩

/-- `kwargs.update(params)`: each key present in the caller dictionary
replaces the collected value. -/
def MaParams.update (kwargs : MaParams) (p : MaParamsPatch) : MaParams :=
  ⟨p.default.getD kwargs.default, p.load_from.getD kwargs.load_from,
   p.validate.getD kwargs.validate, p.required.getD kwargs.required,
   p.allow_none.getD kwargs.allow_none, p.load_only.getD kwargs.load_only,
   p.dump_only.getD kwargs.dump_only, p.missing.getD kwargs.missing,
   p.error_messages.getD kwargs.error_messages,
   p.attribute_.getD kwargs.attribute_⟩

/-- The pure-marshmallow field instance `as_marshmallow_field` returns:
the class that was instantiated, the kwargs it received, and whether its
`error_messages` were rewrapped in `I18nErrorDict` (the source always
rewraps before returning). -/
structure MaFieldInstance where
  cls : PyClass
  kwargs : MaParams
  i18nWrapped : Bool
  deriving Repr, DecidableEq

/-- `BaseField.as_marshmallow_field`: collects the marshmallow parameters,
applies caller overrides, then instantiates the first MRO class that is a
marshmallow `Field` subclass but not a `BaseField` subclass, wrapping its
error messages for lazy translation. When the loop finds no such class the
Python function implicitly returns `None` (modelled by `none`): there is
no raise statement. -/
def as_marshmallow_field (f : BaseFieldData) (params : MaParamsPatch)
    (mongo_world : Bool) : Option MaFieldInstance :=
  let kwargs := (_extract_marshmallow_field_params f mongo_world).update params
  (findPureMaClass f.mro).map (fun c => ⟨c, kwargs, true⟩)

/-- `I18nErrorDict.__getitem__`: looks up the raw stored template and
passes it through the active catalog `tr` on every read (a missing key
raises `KeyError`, modelled by `none`). -/
def I18nErrorDict.getItem (tr : String → String)
    (d : List (String × String)) (name : String) : Option String :=
  (d.lookup name).map tr

/-- The per-instance state set by `BaseValidator.__init__` and the
`error` setter: the untranslated template. -/
structure BaseValidatorState where
  _error : String
  deriving Repr, DecidableEq

/-- The `BaseValidator.error` property getter: translates the stored
template through the active catalog on each read. -/
def BaseValidator.errorProp (tr : String → String)
    (v : BaseValidatorState) : String :=
  tr v._error

/-- The `BaseValidator.error` setter: stores the value untranslated. -/
def BaseValidator.setError (v : BaseValidatorState)
    (value : String) : BaseValidatorState :=
  ⟨value⟩

/-- The tuple of attribute names `as_marshmallow_validator` reads off the
validator instance, in source order. -/
def validatorParamNames : List String :=
  ["default", "attribute", "load_from", "validate", "required",
   "allow_none", "load_only", "dump_only", "missing", "error_messages"]

/-- Python `getattr` over an instance's attribute dictionary, for each
name in order: the first missing attribute raises `AttributeError`
(the dict comprehension in the source evaluates the names left to
right). -/
def getattrEach (attrs : List (String × PyValue)) :
    List String → Except String (List (String × PyValue))
  | [] => Except.ok []
  | n :: rest =>
      match attrs.lookup n with
      | some v => (getattrEach attrs rest).map (fun l => (n, v) :: l)
      | none => Except.error ("AttributeError: " ++ n)

/-- The pure-marshmallow validator `as_marshmallow_validator` would
return: the MRO class it instantiates and the collected kwargs. -/
structure MaValidatorInstance where
  cls : PyClass
  kwargs : List (String × PyValue)
  deriving Repr, DecidableEq

/-- `BaseValidator.as_marshmallow_validator`: builds its kwargs by reading
the ten field-specific attributes off the validator instance (raising
`AttributeError` at the first one the instance lacks), then walks the MRO
for a class that is a marshmallow `Field` subclass but not a `BaseField`
subclass; falling off the loop returns Python `None` (`Except.ok none`).
Caller `params` are merged into the kwargs when supplied. -/
def as_marshmallow_validator (attrs : List (String × PyValue))
    (mro : List PyClass) (params : List (String × PyValue)) :
    Except String (Option MaValidatorInstance) :=
  match getattrEach attrs validatorParamNames with
  | Except.error e => Except.error e
  | Except.ok kwargs =>
      Except.ok ((findPureMaClass mro).map (fun c => ⟨c, kwargs ++ params⟩))

/-- A concrete validator instance in the style of
`marshmallow.validate.Range(min=0, max=10)` subclassed through
`BaseValidator`: its attribute dictionary holds `min`, `max`, the raw
`_error` slot and nothing field-specific. -/
def rangeValidatorAttrs : List (String × PyValue) :=
  [("min", PyValue.intV 0), ("max", PyValue.intV 10),
   ("_error", PyValue.noneV)]

/-- The MRO of that validator: the concrete class, `BaseValidator`,
marshmallow's `Validator`, then `object` — none of which is a marshmallow
`Field` subclass. -/
def rangeValidatorMro : List PyClass :=
  [⟨"Range", false, false⟩, ⟨"BaseValidator", false, false⟩,
   ⟨"Validator", false, false⟩, ⟨"object", false, false⟩]

/-- `BaseDataObject.to_mongo`: returns the data object itself, for any
value of the `update` argument. -/
def BaseDataObject.to_mongo {α : Type} (self : α) (update : Bool) : α :=
  self

/-- `BaseDataObject.dump`: returns the data object itself. -/
def BaseDataObject.dump {α : Type} (self : α) : α :=
  self

/-- C1: for the base/default field variant, converting any value other
than the absent sentinel to the storage representation and back returns
it unchanged: `deserialize_from_mongo (serialize_to_mongo v) = v`. -/
theorem base_field_roundtrip (v : PyValue) (h : v ≠ PyValue.missing) :
    deserialize_from_mongo baseFieldConv (serialize_to_mongo baseFieldConv v)
      = v := by
  simp [deserialize_from_mongo, serialize_to_mongo, baseFieldConv,
    _serialize_to_mongo, _deserialize_from_mongo, h]

/-- Witness for `base_field_roundtrip` at the concrete value `3`. -/
theorem base_field_roundtrip_witness :
    deserialize_from_mongo baseFieldConv
      (serialize_to_mongo baseFieldConv (PyValue.intV 3)) = PyValue.intV 3 :=
  base_field_roundtrip (PyValue.intV 3) (by decide)

/-- C5: `serialize_to_mongo` maps the absent sentinel to itself for every
field, whatever its `_serialize_to_mongo` conversion hook does: the hook
is never applied to `missing`, so the result does not depend on it and a
never-supplied field stays absent in the storage output. -/
theorem serialize_to_mongo_absent (ser deser : PyValue → PyValue) :
    serialize_to_mongo ⟨ser, deser⟩ PyValue.missing = PyValue.missing := by
  simp [serialize_to_mongo]

/-- C10: for the base Data Object contract, `to_mongo` (for either value
of its `update` argument) and `dump` both return the data object itself
unchanged. -/
theorem base_data_object_identity {α : Type} (self : α) (update : Bool) :
    BaseDataObject.to_mongo self update = self ∧
    BaseDataObject.dump self = self :=
  ⟨rfl, rfl⟩

/-- C3 counterexample: with `unique` alone enabled
(`required = false, allow_none = false, unique = true`) the code's table
yields a unique sparse index, while the claim's table yields a plain
unique index. -/
theorem index_table_counterexample :
    indexKind false false true = IndexKind.uniqueSparseIndex ∧
    indexKindClaim false false true = IndexKind.uniqueIndex := by
  decide

/-- The index table corrected to what the `BaseField` docstring states:
no index when `unique` is off, a plain unique index when `unique` and
`required` are both on (whatever `allow_none`), and a unique sparse index
when `unique` is on and `required` is off (whatever `allow_none`). -/
def indexKindAmended (required allow_none unique : Bool) : IndexKind :=
  if unique = false then IndexKind.noIndex
  else if required = true then IndexKind.uniqueIndex
  else IndexKind.uniqueSparseIndex

/-- C3 amended: for all 8 flag combinations, the documented index kind is
`none` when `unique` is off, plain `unique` when `unique` and `required`
are on, and `unique, sparse` exactly when `unique` is on and `required`
is off — `allow_none` never changes the index kind. -/
theorem index_table_matches_amended (required allow_none unique : Bool) :
    indexKind required allow_none unique
      = indexKindAmended required allow_none unique := by
  cases required <;> cases allow_none <;> cases unique <;> rfl

/-- C4: evaluating `as_marshmallow_validator` on a Range-style validator
shows the code slip: the kwargs collection reads the field-only attribute
`default` off the validator instance and raises `AttributeError`; and
even past that, the MRO walk searches for a marshmallow `Field` subclass,
which no validator hierarchy contains, so no validator could ever be
returned (the loop would fall through to `None`). -/
theorem as_marshmallow_validator_bug :
    as_marshmallow_validator rangeValidatorAttrs rangeValidatorMro []
      = Except.error "AttributeError: default" ∧
    findPureMaClass rangeValidatorMro = none := by
  constructor <;> rfl


/-- C2 counterexample: loading a mapping with two unknown keys
`ghost1, ghost2` against a schema with the single field `name` raises
exactly one error, citing only the first unknown key: `ghost2` never
gets its own error, contradicting "each unknown key produces one
localized error citing that key". -/
theorem check_unknown_fields_counterexample :
    _check_unknown_fields id [⟨"name", false⟩] ["ghost1", "ghost2"]
      = Except.error (unknownFieldMsg id "ghost1") ∧
    unknownFieldMsg id "ghost1" ≠ unknownFieldMsg id "ghost2" := by
  constructor
  · rfl
  · decide

/-- C2 amended: the first key of the raw mapping (in iteration order)
that is not a loadable field name — matched by declared name, not storage
alias — produces one localized `ValidationError` citing that key. -/
theorem check_unknown_fields_cites_first_unknown (tr : String → String)
    (fields : List SchemaField) (pre : List String) (key : String)
    (post : List String)
    (hpre : ∀ k ∈ pre, k ∈ loadable_fields fields)
    (hkey : key ∉ loadable_fields fields) :
    _check_unknown_fields tr fields (pre ++ key :: post)
      = Except.error (unknownFieldMsg tr key) := by
  induction pre with
  | nil => simp [_check_unknown_fields, hkey]
  | cons a l ih =>
      have ha : a ∈ loadable_fields fields := hpre a (List.mem_cons_self a l)
      have hrest : ∀ k ∈ l, k ∈ loadable_fields fields :=
        fun k hk => hpre k (List.mem_cons_of_mem a hk)
      simpa [_check_unknown_fields, ha] using ih hrest

/-- Witness: loading `{"ghost": 1}` against a schema with the single
optional field `name` yields the error citing `ghost`. -/
theorem check_unknown_fields_cites_first_unknown_witness :
    _check_unknown_fields id [⟨"name", false⟩] ["ghost"]
      = Except.error (unknownFieldMsg id "ghost") :=
  check_unknown_fields_cites_first_unknown id [⟨"name", false⟩] [] "ghost" []
    (by simp) (by decide)

/-- If some key of the data is not a loadable field name, the
unknown-field check raises. -/
theorem check_unknown_fields_errors_of_unknown_mem (tr : String → String)
    (fields : List SchemaField) (data : List String) (k : String)
    (hk : k ∈ data) (hunk : k ∉ loadable_fields fields) :
    ∃ msg, _check_unknown_fields tr fields data = Except.error msg := by
  induction data with
  | nil => cases hk
  | cons a rest ih =>
      by_cases ha : a ∈ loadable_fields fields
      · have hka : k ≠ a := fun h => hunk (h ▸ ha)
        have hmem : k ∈ rest := by
          cases hk with
          | head => exact absurd rfl hka
          | tail _ h => exact h
        obtain ⟨msg, hmsg⟩ := ih hmem
        exact ⟨msg, by simpa [_check_unknown_fields, ha] using hmsg⟩
      · exact ⟨unknownFieldMsg tr a, by simp [_check_unknown_fields, ha]⟩

/-- C8: a key of the raw mapping that names a `dump_only` field is not a
loadable field name (field names being unique within a schema), so the
unknown-field check treats it as unrecognized and the load fails with a
`ValidationError`. -/
theorem dump_only_key_rejected (tr : String → String)
    (fields : List SchemaField) (f : SchemaField) (data : List String)
    (hnodup : (fields.map SchemaField.name).Nodup)
    (hf : f ∈ fields) (hdump : f.dump_only = true) (hkey : f.name ∈ data) :
    ∃ msg, _check_unknown_fields tr fields data = Except.error msg := by
  have hunk : f.name ∉ loadable_fields fields := by
    intro hmem
    obtain ⟨g, hg, hgname⟩ := by
      simpa [loadable_fields, List.mem_filter] using hmem
    have hgf : g = f :=
      List.inj_on_of_nodup_map hnodup hg.1 hf hgname
    rw [hgf, hdump] at hg
    simp at hg
  exact check_unknown_fields_errors_of_unknown_mem tr fields data f.name
    hkey hunk

/-- Witness for `dump_only_key_rejected`: a schema whose single field
`secret` is dump-only rejects the input key `secret`. -/
theorem dump_only_key_rejected_witness :
    ∃ msg, _check_unknown_fields id [⟨"secret", true⟩] ["secret"]
      = Except.error msg :=
  dump_only_key_rejected id [⟨"secret", true⟩] ⟨"secret", true⟩ ["secret"]
    (by simp) (by decide) rfl (by decide)

/-- C6: error messages are stored untranslated and translated lazily at
read time. A field's `error_messages` lookup passes the stored template
through the active catalog on each read, and a validator's `error`
property does the same with its stored `_error`, so swapping the catalog
after construction changes the message subsequently returned. -/
theorem lazy_translation_on_read (tr₁ tr₂ : String → String)
    (d : List (String × String)) (name raw : String)
    (hlook : d.lookup name = some raw)
    (hne : tr₁ raw ≠ tr₂ raw) :
    I18nErrorDict.getItem tr₁ d name = some (tr₁ raw) ∧
    I18nErrorDict.getItem tr₁ d name ≠ I18nErrorDict.getItem tr₂ d name ∧
    BaseValidator.errorProp tr₁ ⟨raw⟩ = tr₁ raw ∧
    BaseValidator.errorProp tr₁ ⟨raw⟩ ≠ BaseValidator.errorProp tr₂ ⟨raw⟩ := by
  refine ⟨?_, ?_, rfl, hne⟩
  · simp [I18nErrorDict.getItem, hlook]
  · simp [I18nErrorDict.getItem, hlook]
    exact hne

/-- Witness for `lazy_translation_on_read`: swapping the identity catalog
for one that appends `!` changes the message returned for the stored
`unique` template. -/
theorem lazy_translation_on_read_witness :
    I18nErrorDict.getItem id [("unique", "Field value must be unique.")]
        "unique" = some (id "Field value must be unique.") ∧
    I18nErrorDict.getItem id [("unique", "Field value must be unique.")]
        "unique"
      ≠ I18nErrorDict.getItem (fun s => s ++ "!")
          [("unique", "Field value must be unique.")] "unique" ∧
    BaseValidator.errorProp id ⟨"Field value must be unique."⟩
      = id "Field value must be unique." ∧
    BaseValidator.errorProp id ⟨"Field value must be unique."⟩
      ≠ BaseValidator.errorProp (fun s => s ++ "!")
          ⟨"Field value must be unique."⟩ :=
  lazy_translation_on_read id (fun s => s ++ "!")
    [("unique", "Field value must be unique.")] "unique"
    "Field value must be unique." (by decide) (by decide)

/-- A hierarchy with no marshmallow-`Field` ancestor outside `BaseField`:
its only ancestors are a class that is both a `BaseField` and a
marshmallow `Field` subclass, and `object`. -/
def noAncestorFieldData : BaseFieldData :=
  ⟨PyValue.missing, none, none, PyValue.noneV, false, false, false, false,
   PyValue.missing, [],
   [⟨"OddField", true, true⟩, ⟨"object", false, false⟩]⟩

/-- C7 counterexample: on a hierarchy with no qualifying ancestor,
`as_marshmallow_field` returns Python `None` — the loop simply falls
through; the function body contains no raise, so no internal consistency
error is produced, contrary to the claim. -/
theorem as_marshmallow_field_no_ancestor_counterexample :
    as_marshmallow_field noAncestorFieldData MaParamsPatch.empty false
      = none := by
  rfl

/-- `find?` over an appended list returns the marked element when nothing
before it satisfies the predicate and it does. -/
theorem find?_append_first {α : Type} (p : α → Bool) (pre : List α)
    (c : α) (post : List α)
    (hpre : ∀ x ∈ pre, p x = false) (hc : p c = true) :
    (pre ++ c :: post).find? p = some c := by
  induction pre with
  | nil =>
      rw [List.nil_append]
      exact List.find?_cons_of_pos _ hc
  | cons a l ih =>
      have ha := hpre a (List.mem_cons_self a l)
      rw [List.cons_append, List.find?_cons_of_neg _ (by simp [ha])]
      exact ih (fun k hk => hpre k (List.mem_cons_of_mem a hk))

/-- C7 amended: `as_marshmallow_field` instantiates, with the collected
and overridden parameters (error messages rewrapped for lazy
translation), the first MRO entry that is a marshmallow `Field` subclass
but not a `BaseField` subclass; when no such ancestor exists it returns
Python `None` without raising (a case unreachable for real fields, since
`BaseField` itself inherits marshmallow's `Field`). -/
theorem as_marshmallow_field_capability_ancestor (f g : BaseFieldData)
    (params : MaParamsPatch) (mongo_world : Bool)
    (pre : List PyClass) (c : PyClass) (post : List PyClass)
    (hmro : f.mro = pre ++ c :: post)
    (hpre : ∀ c' ∈ pre, (!c'.isBaseField && c'.isMaField) = false)
    (hc : (!c.isBaseField && c.isMaField) = true)
    (hg : ∀ c' ∈ g.mro, (!c'.isBaseField && c'.isMaField) = false) :
    as_marshmallow_field f params mongo_world
      = some ⟨c, (_extract_marshmallow_field_params f mongo_world).update
          params, true⟩ ∧
    as_marshmallow_field g params mongo_world = none := by
  constructor
  · have hfind : findPureMaClass f.mro = some c := by
      rw [hmro]
      exact find?_append_first _ pre c post hpre hc
    simp [as_marshmallow_field, hfind]
  · have hfind : findPureMaClass g.mro = none := by
      unfold findPureMaClass
      exact List.find?_eq_none.mpr (fun x hx => by simp [hg x hx])
    simp [as_marshmallow_field, hfind]

/-- The MRO of a concrete integer field: the umongo classes first, then
the pure marshmallow classes. -/
def intFieldMro : List PyClass :=
  [⟨"IntField", true, true⟩, ⟨"BaseField", true, true⟩,
   ⟨"MaInteger", true, false⟩, ⟨"MaField", true, false⟩,
   ⟨"object", false, false⟩]

/-- A concrete integer field with a storage attribute and one validator
hook recorded. -/
def intFieldData : BaseFieldData :=
  ⟨PyValue.missing, some "count_db", none, PyValue.noneV, true, false,
   false, false, PyValue.missing,
   [("unique", "Field value must be unique.")], intFieldMro⟩

/-- Witness for `as_marshmallow_field_capability_ancestor`: projecting the
concrete integer field instantiates `MaInteger` — the first pure
marshmallow ancestor — with the collected parameters, and the
no-ancestor hierarchy yields `None`. -/
theorem as_marshmallow_field_capability_ancestor_witness :
    as_marshmallow_field intFieldData MaParamsPatch.empty false
      = some ⟨⟨"MaInteger", true, false⟩,
          (_extract_marshmallow_field_params intFieldData false).update
            MaParamsPatch.empty, true⟩ ∧
    as_marshmallow_field noAncestorFieldData MaParamsPatch.empty false
      = none :=
  as_marshmallow_field_capability_ancestor intFieldData noAncestorFieldData
    MaParamsPatch.empty false
    [⟨"IntField", true, true⟩, ⟨"BaseField", true, true⟩]
    ⟨"MaInteger", true, false⟩
    [⟨"MaField", true, false⟩, ⟨"object", false, false⟩]
    rfl (by decide) (by decide) (by decide)

/-- C9 counterexample: a field whose storage attribute is set to the
empty string (a set attribute, but falsy in Python) translates a query
under the given key, not under the attribute, because the source computes
`self.attribute or key` with Python truthiness. -/
theorem translate_query_counterexample :
    translate_query (some "") "k" (PyValue.intV 1) = [("k", PyValue.intV 1)]
      ∧ ("k" : String) ≠ "" := by
  constructor
  · rfl
  · decide

/-- C9 amended: `translate_query` returns a single-entry mapping carrying
the predicate, keyed by the storage attribute when it is set and
non-empty, and by the given key when the attribute is unset or empty (an
empty attribute is falsy under Python `or`); being a Lean function of its
arguments, it has no side effects. -/
theorem translate_query_single_entry (attribute_ : Option String)
    (key : String) (query : PyValue) :
    (∀ a, attribute_ = some a → a ≠ "" →
      translate_query attribute_ key query = [(a, query)]) ∧
    (attribute_ = none ∨ attribute_ = some "" →
      translate_query attribute_ key query = [(key, query)]) ∧
    (translate_query attribute_ key query).length = 1 := by
  refine ⟨?_, ?_, rfl⟩
  · rintro a rfl hne
    simp [translate_query, strTruthy, hne]
  · rintro (rfl | rfl) <;> simp [translate_query, strTruthy]

/-- Witness for `translate_query_single_entry`: a field stored under
`name_db` translates a query on `name` into a mapping keyed by
`name_db`. -/
theorem translate_query_single_entry_witness :
    translate_query (some "name_db") "name" (PyValue.intV 1)
      = [("name_db", PyValue.intV 1)] :=
  (translate_query_single_entry (some "name_db") "name"
    (PyValue.intV 1)).1 "name_db" rfl (by decide)
